import Mathlib

/-!
Shallow embedding of the Risk Classification Engine of `src/app.py`
(the `/predict` Flask route): request validation, feature encoding,
scaler/classifier invocation, probability rounding and risk-tier
resolution. Machine floats are modelled by `ℚ`; the externally loaded
scaler and model artifacts are parameters of the pipeline, with their
possible exceptions modelled by `Except String`.
-/

/-- A JSON value as it reaches the route after Flask's `request.json`
parsing: strings, numbers (modelled by `ℚ`), booleans and `null`
(Python `None`). The 14 request fields only ever use these shapes. -/
inductive Value where
  | str (s : String)
  | num (q : ℚ)
  | bool (b : Bool)
  | null
deriving DecidableEq

/-- The raw request payload: the key/value pairs of the inbound JSON
object, in the order they appear on the wire. -/
abbrev RawRequest : Type := List (String × Value)

/-- `data.get(q)`: dictionary lookup by key (first binding wins; JSON
objects carry each key once). Returns `none` for an absent key. -/
def dGet (d : RawRequest) (k : String) : Option Value :=
  (List.find? (fun p => p.1 == k) d).map (fun p => p.2)

/-- The fixed field order of `questions` in `predict` (src/app.py lines
96-99). This is the FeatureSpec order; it is a literal in the code, not
derived from the request. -/
def questions : List String :=
  ["age", "trauma", "vt_history", "cancer", "lung", "renal", "diabetes",
   "temperature", "bmi", "edema", "immobility", "pneumonia", "platelets", "af"]

/-- The numeric fields, from the membership test
`q in ['age', 'temperature', 'bmi', 'platelets']` (line 108). -/
def numericFields : List String := ["age", "temperature", "bmi", "platelets"]

/-- Splits a list of characters into its longest prefix of decimal
digits and the rest. Helper for the model of Python `float(str)`. -/
def splitDigits : List Char → List Char × List Char
  | [] => ([], [])
  | c :: cs =>
    if c.isDigit then
      let p := splitDigits cs
      (c :: p.1, p.2)
    else ([], c :: cs)

/-- Digit characters to the natural number they denote. -/
def digitsToNat (cs : List Char) : Nat :=
  cs.foldl (fun a c => a * 10 + (c.toNat - 48)) 0

/-- An unsigned decimal integer consuming the whole input. -/
def parsePosInt (cs : List Char) : Option ℤ :=
  let p := splitDigits cs
  if p.1.isEmpty then none
  else if p.2.isEmpty then some (digitsToNat p.1) else none

/-- An optionally signed decimal integer (an exponent). -/
def parseSignedInt : List Char → Option ℤ
  | '+' :: r => parsePosInt r
  | '-' :: r => (parsePosInt r).map (fun n => -n)
  | r => parsePosInt r

/-- The optional exponent suffix `e`/`E` followed by a signed integer;
empty input means exponent 0. -/
def parseExp : List Char → Option ℤ
  | [] => some 0
  | 'e' :: r => parseSignedInt r
  | 'E' :: r => parseSignedInt r
  | _ => none

/-- Mantissa and exponent after the optional sign: `digits [. digits]
[exp]` or `. digits [exp]`, as accepted by CPython `float`. -/
def parseFrac (cs : List Char) : Option ℚ :=
  let ip := splitDigits cs
  match ip.2 with
  | '.' :: r2 =>
    let fp := splitDigits r2
    if ip.1.isEmpty ∧ fp.1.isEmpty then none
    else
      (parseExp fp.2).map (fun e =>
        ((digitsToNat ip.1 : ℚ) + (digitsToNat fp.1 : ℚ) / (10 ^ fp.1.length))
          * (10 : ℚ) ^ e)
  | _ =>
    if ip.1.isEmpty then none
    else (parseExp ip.2).map (fun e => (digitsToNat ip.1 : ℚ) * (10 : ℚ) ^ e)

/-- Strips leading and trailing whitespace, as Python `float(str)`
does before parsing. -/
def trimChars (cs : List Char) : List Char :=
  ((cs.dropWhile Char.isWhitespace).reverse.dropWhile Char.isWhitespace).reverse

/-- Model of Python `float(s)` on a string: surrounding whitespace is
stripped, then an optionally signed finite decimal literal (with
optional fraction and exponent) is accepted. Non-finite literals
(`inf`, `nan`) have no `ℚ` denotation and are outside the model; no
claim touches them. -/
def parsePyFloat (s : String) : Option ℚ :=
  match trimChars s.toList with
  | '+' :: r => parseFrac r
  | '-' :: r => (parseFrac r).map (fun q => -q)
  | r => parseFrac r

/-- Model of Python `repr` for the plain strings that appear in
`float()` error messages. -/
def pyRepr (s : String) : String := "'" ++ s ++ "'"

/-- Model of Python `str(value)` as used by the f-string in the
invalid-boolean error message. Non-integer numbers fall back to the
`ℚ` rendering; no request in the claims sends a non-integer number to
a boolean field. -/
def pyStr : Value → String
  | Value.str s => s
  | Value.bool true => "True"
  | Value.bool false => "False"
  | Value.null => "None"
  | Value.num q => if q.den = 1 then toString q.num else toString q

/-- Model of Python `float(value)` (line 109): numbers pass through,
booleans become 1.0/0.0, strings are parsed, and failure carries the
`ValueError` text that `str(e)` would surface. -/
def pyFloat : Value → Except String ℚ
  | Value.num q => Except.ok q
  | Value.bool b => Except.ok (if b then 1 else 0)
  | Value.str s =>
    match parsePyFloat s with
    | some q => Except.ok q
    | none => Except.error ("could not convert string to float: " ++ pyRepr s)
  | Value.null =>
    Except.error "float() argument must be a string or a real number, not 'NoneType'"

/-- How the per-field loop can fail: `badRequest` is the `return
jsonify({'error': ...}), 400` taken for a missing field or an invalid
boolean; `raised` is an exception (the `float` ValueError) that the
outer `except` will turn into a 500. -/
inductive LoopErr where
  | badRequest (msg : String)
  | raised (msg : String)
deriving DecidableEq

/-- One iteration body after the `value is None` check (lines 108-113):
numeric fields go through `float(value)`; other fields must be exactly
the string `"Yes"` or `"No"` and encode as 1/0. -/
def encodeField (q : String) (v : Value) : Except LoopErr ℚ :=
  if q ∈ numericFields then
    match pyFloat v with
    | Except.ok x => Except.ok x
    | Except.error m => Except.error (LoopErr.raised m)
  else
    if v = Value.str "Yes" then Except.ok 1
    else if v = Value.str "No" then Except.ok 0
    else
      Except.error (LoopErr.badRequest
        ("Invalid value for " ++ q ++ ": " ++ pyStr v ++ ". Must be Yes or No."))

/-- The validation/encoding loop `for q in questions` (lines 102-113):
`data.get(q)` is `None` both for an absent key and for JSON `null`, and
either yields the 400 `Missing value for: q`; otherwise the field is
encoded and appended in order. First failure stops the loop. -/
def encodeFields (d : RawRequest) : List String → Except LoopErr (List ℚ)
  | [] => Except.ok []
  | q :: qs =>
    match dGet d q with
    | none => Except.error (LoopErr.badRequest ("Missing value for: " ++ q))
    | some v =>
      if v = Value.null then
        Except.error (LoopErr.badRequest ("Missing value for: " ++ q))
      else
        match encodeField q v with
        | Except.error e => Except.error e
        | Except.ok x => (encodeFields d qs).map (fun ys => x :: ys)

/-- Round half to even, the tie-breaking rule of Python `round`. -/
def roundHalfEven (q : ℚ) : ℤ :=
  let n := q.floor
  let frac := q - n
  if frac < 1 / 2 then n
  else if 1 / 2 < frac then n + 1
  else if n % 2 = 0 then n else n + 1

/-- Model of `round(x, 2)` (line 120). -/
def round2 (q : ℚ) : ℚ := (roundHalfEven (q * 100) : ℚ) / 100

/-- The risk-tier ladder of lines 123-130, applied to the (already
rounded) probability in percent. -/
def riskLevel (pe : ℚ) : String :=
  if pe < 35 then "Low Risk"
  else if pe < 50 then "Medium Risk"
  else if pe < 75 then "High Risk"
  else "Severe Risk"

/-- The externally loaded artifacts as the route uses them:
`scaler.transform`, `model.predict` (whose result is computed but
unused) and `model.predict_proba` (a matrix of class-probability
rows). An `Except.error` models the Python exception the call may
raise, carrying `str(e)`. -/
structure Artifacts where
  scalerTransform : List ℚ → Except String (List ℚ)
  modelPredict : List ℚ → Except String (List ℚ)
  modelPredictProba : List ℚ → Except String (List (List ℚ))

/-- NumPy-style indexing `a[i]`: out of bounds raises (modelled with
the IndexError text). -/
def pyIndex {α : Type} (l : List α) (i : Nat) : Except String α :=
  match l.get? i with
  | some x => Except.ok x
  | none =>
    Except.error ("index " ++ toString i ++ " is out of bounds for axis 0 with size "
      ++ toString l.length)

/-- The `/predict` response. Failures are `err status message` from
`jsonify({'error': ...}), status`; success carries the rounded
probability `pe_probability` (interpolated into the fixed message
template `The person has a {pe}% chance of developing PE in the
future.`) and the `risk_level` string. -/
inductive PredictResponse where
  | err (status : Nat) (msg : String)
  | ok (peProbability : ℚ) (riskLevel : String)
deriving DecidableEq

/-- The `predict` route (src/app.py lines 90-138): a `None` body is a
400; the validation loop's 400s return directly; any exception raised
inside the `try` (float conversion, scaler, model, indexing) reaches
`except Exception as e: return jsonify({'error': str(e)}), 500`; on
success the probability is rounded to two decimals, the tier ladder is
applied to the rounded value, and both are returned. -/
def predict (A : Artifacts) (data : Option RawRequest) : PredictResponse :=
  match data with
  | none => PredictResponse.err 400 "No JSON data provided"
  | some d =>
    match encodeFields d questions with
    | Except.error (LoopErr.badRequest m) => PredictResponse.err 400 m
    | Except.error (LoopErr.raised m) => PredictResponse.err 500 m
    | Except.ok feats =>
      match A.scalerTransform feats with
      | Except.error m => PredictResponse.err 500 m
      | Except.ok scaled =>
        match A.modelPredict scaled with
        | Except.error m => PredictResponse.err 500 m
        | Except.ok _ =>
          match A.modelPredictProba scaled with
          | Except.error m => PredictResponse.err 500 m
          | Except.ok probs =>
            match pyIndex probs 0 with
            | Except.error m => PredictResponse.err 500 m
            | Except.ok row =>
              match pyIndex row 1 with
              | Except.error m => PredictResponse.err 500 m
              | Except.ok p =>
                let pe := round2 (p * 100)
                PredictResponse.ok pe (riskLevel pe)

/-- `value is None` (line 105): true when the key is absent from the
payload or bound to JSON `null`, the two cases Python's `data.get`
collapses into `None`. -/
def isNull : Option Value → Bool
  | none => true
  | some Value.null => true
  | some _ => false

/-- The value a single field contributes to the feature vector when it
validates, and `none` when it is missing, null, unparsable or an
invalid boolean. Derived view of one loop iteration, used to state the
shape of successful encodings. -/
def fieldValue (d : RawRequest) (q : String) : Option ℚ :=
  match dGet d q with
  | none => none
  | some v =>
    if v = Value.null then none
    else
      match encodeField q v with
      | Except.ok x => some x
      | Except.error _ => none

/-- Whether `sub` occurs as a contiguous substring of `s`. Used to
state that an error message does (not) mention a field name. -/
def hasSubstring (s sub : String) : Bool :=
  (List.range (s.length + 1)).any
    (fun i => ((s.toList.drop i).take sub.toList.length) == sub.toList)

/-- A valid request payload: the end-to-end scenario of §8 of the spec
(all risk factors "No", age 45, temperature 37.0, bmi 22.5,
platelets 250). -/
def payloadA : RawRequest :=
  [("age", Value.num 45), ("trauma", Value.str "No"), ("vt_history", Value.str "No"),
   ("cancer", Value.str "No"), ("lung", Value.str "No"), ("renal", Value.str "No"),
   ("diabetes", Value.str "No"), ("temperature", Value.num 37), ("bmi", Value.num (45 / 2)),
   ("edema", Value.str "No"), ("immobility", Value.str "No"), ("pneumonia", Value.str "No"),
   ("platelets", Value.num 250), ("af", Value.str "No")]

/-- The feature vector the codec produces for `payloadA`. -/
def featsA : List ℚ := [45, 0, 0, 0, 0, 0, 0, 37, 45 / 2, 0, 0, 0, 250, 0]

/-- Benign artifacts: the scaler is the identity and the classifier
reports the probability row `[1/2, 1/2]` for every input. -/
def idArtifacts : Artifacts :=
  ⟨fun v => Except.ok v, fun _ => Except.ok [0], fun _ => Except.ok [[1 / 2, 1 / 2]]⟩

/-- Artifacts whose probability row assigns `p` to the positive class. -/
def probaArtifacts (p : ℚ) : Artifacts :=
  ⟨fun v => Except.ok v, fun _ => Except.ok [0], fun _ => Except.ok [[1 - p, p]]⟩

/-- Artifacts whose scaler raises an exception carrying `msg`
(modelling, e.g., a feature-count mismatch inside
`scaler.transform`). -/
def failingArtifacts (msg : String) : Artifacts :=
  ⟨fun _ => Except.error msg, fun _ => Except.ok [0], fun _ => Except.ok [[1 / 2, 1 / 2]]⟩

/-- `payloadA` with the `bmi` field omitted (end-to-end scenario B). -/
def payloadNoBmi : RawRequest :=
  [("age", Value.num 45), ("trauma", Value.str "No"), ("vt_history", Value.str "No"),
   ("cancer", Value.str "No"), ("lung", Value.str "No"), ("renal", Value.str "No"),
   ("diabetes", Value.str "No"), ("temperature", Value.num 37),
   ("edema", Value.str "No"), ("immobility", Value.str "No"), ("pneumonia", Value.str "No"),
   ("platelets", Value.num 250), ("af", Value.str "No")]

/-- `payloadA` with `trauma` set to the string `"maybe"` (end-to-end
scenario C). -/
def payloadTraumaMaybe : RawRequest :=
  [("age", Value.num 45), ("trauma", Value.str "maybe"), ("vt_history", Value.str "No"),
   ("cancer", Value.str "No"), ("lung", Value.str "No"), ("renal", Value.str "No"),
   ("diabetes", Value.str "No"), ("temperature", Value.num 37), ("bmi", Value.num (45 / 2)),
   ("edema", Value.str "No"), ("immobility", Value.str "No"), ("pneumonia", Value.str "No"),
   ("platelets", Value.num 250), ("af", Value.str "No")]

/-- `payloadA` with `age` set to the unparsable string `"abc"`. -/
def payloadAgeAbc : RawRequest :=
  [("age", Value.str "abc"), ("trauma", Value.str "No"), ("vt_history", Value.str "No"),
   ("cancer", Value.str "No"), ("lung", Value.str "No"), ("renal", Value.str "No"),
   ("diabetes", Value.str "No"), ("temperature", Value.num 37), ("bmi", Value.num (45 / 2)),
   ("edema", Value.str "No"), ("immobility", Value.str "No"), ("pneumonia", Value.str "No"),
   ("platelets", Value.num 250), ("af", Value.str "No")]

/-- A payload whose two earliest fields are both offending: `age` is
the unparsable string `"abc"` and `trauma` is absent. -/
def payloadAgeAbcNoTrauma : RawRequest :=
  [("age", Value.str "abc"), ("vt_history", Value.str "No"),
   ("cancer", Value.str "No"), ("lung", Value.str "No"), ("renal", Value.str "No"),
   ("diabetes", Value.str "No"), ("temperature", Value.num 37), ("bmi", Value.num (45 / 2)),
   ("edema", Value.str "No"), ("immobility", Value.str "No"), ("pneumonia", Value.str "No"),
   ("platelets", Value.num 250), ("af", Value.str "No")]

/-- One-step unfolding of the encoding loop. -/
theorem encodeFields_cons (d : RawRequest) (q : String) (qs : List String) :
    encodeFields d (q :: qs) =
      match dGet d q with
      | none => Except.error (LoopErr.badRequest ("Missing value for: " ++ q))
      | some v =>
        if v = Value.null then
          Except.error (LoopErr.badRequest ("Missing value for: " ++ q))
        else
          match encodeField q v with
          | Except.error e => Except.error e
          | Except.ok x => (encodeFields d qs).map (fun ys => x :: ys) := rfl

/-- If a prefix of the field list encodes successfully, the loop on the
longer list continues into the remainder with the prefix's vector
prepended. -/
theorem encodeFields_append (d : RawRequest) (pre rest : List String) (xs : List ℚ)
    (h : encodeFields d pre = Except.ok xs) :
    encodeFields d (pre ++ rest) = (encodeFields d rest).map (fun ys => xs ++ ys) := by
  induction pre generalizing xs with
  | nil =>
    cases h
    simp only [List.nil_append]
    cases hr : encodeFields d rest <;> simp [Except.map]
  | cons q pre ih =>
    simp only [List.cons_append]
    cases hg : dGet d q with
    | none =>
      simp only [encodeFields_cons, hg] at h
      exact Except.noConfusion h
    | some v =>
      by_cases hv : v = Value.null
      · simp only [encodeFields_cons, hg, if_pos hv] at h
        exact Except.noConfusion h
      · cases he : encodeField q v with
        | error e =>
          simp only [encodeFields_cons, hg, if_neg hv, he] at h
          exact Except.noConfusion h
        | ok x =>
          cases hp : encodeFields d pre with
          | error e =>
            simp only [encodeFields_cons, hg, if_neg hv, he, hp, Except.map] at h
            exact Except.noConfusion h
          | ok ys =>
            simp only [encodeFields_cons, hg, if_neg hv, he, hp, Except.map,
              Except.ok.injEq] at h
            subst h
            simp only [encodeFields_cons, hg, if_neg hv, he, ih ys hp]
            cases encodeFields d rest <;> simp [Except.map]

/-- A payload whose keys are not duplicated binds `k` to `v` exactly
when lookup finds `v`. -/
theorem dGet_of_mem (d : RawRequest) (k : String) (v : Value)
    (hn : (d.map Prod.fst).Nodup) (hm : (k, v) ∈ d) : dGet d k = some v := by
  induction d with
  | nil => cases hm
  | cons p d ih =>
    obtain ⟨k', v'⟩ := p
    rw [List.map_cons, List.nodup_cons] at hn
    rcases List.mem_cons.mp hm with heq | hmem
    · cases heq
      simp [dGet, List.find?]
    · have hkf : (k' == k) = false := by
        rw [beq_eq_false_iff_ne]
        intro h
        subst h
        exact hn.1 (List.mem_map.mpr ⟨(k', v), hmem, rfl⟩)
      simp only [dGet, List.find?, hkf]
      exact ih hn.2 hmem

/-- Lookup misses exactly the keys the payload does not carry. -/
theorem dGet_eq_none_iff (d : RawRequest) (k : String) :
    dGet d k = none ↔ k ∉ d.map Prod.fst := by
  constructor
  · intro h hk
    obtain ⟨p, hp, hpk⟩ := List.mem_map.mp hk
    have hfind : List.find? (fun p => p.1 == k) d = none := by
      cases hf : List.find? (fun p => p.1 == k) d with
      | none => rfl
      | some q => rw [dGet, hf] at h; exact Option.noConfusion h
    have := List.find?_eq_none.mp hfind p hp
    exact this (by simp [hpk])
  · intro h
    rw [dGet]
    have hfind : List.find? (fun p => p.1 == k) d = none := by
      rw [List.find?_eq_none]
      intro p hp hpk
      exact h (List.mem_map.mpr ⟨p, hp, by simpa using hpk⟩)
    rw [hfind]
    rfl

/-- Lookup in a payload with non-duplicated keys is invariant under
reordering the key/value pairs. -/
theorem dGet_eq_of_perm (d d' : RawRequest) (hp : List.Perm d d')
    (hn : (d.map Prod.fst).Nodup) (k : String) : dGet d k = dGet d' k := by
  have hn' : (d'.map Prod.fst).Nodup := ((hp.map Prod.fst).nodup_iff).mp hn
  cases hg : dGet d k with
  | some v =>
    have hm : (k, v) ∈ d := by
      cases hf : List.find? (fun p => p.1 == k) d with
      | none => rw [dGet, hf] at hg; exact Option.noConfusion hg
      | some p =>
        rw [dGet, hf] at hg
        injection hg with hg
        have hpk := List.find?_some hf
        have hmem : p ∈ d := List.mem_of_find?_eq_some hf
        simp only [beq_iff_eq] at hpk
        have hpv : p = (k, v) := by
          obtain ⟨p1, p2⟩ := p
          simp only at hg hpk
          rw [hg, hpk]
        rw [← hpv]
        exact hmem
    exact (dGet_of_mem d' k v hn' (hp.mem_iff.mp hm)).symm
  | none =>
    have h1 := (dGet_eq_none_iff d k).mp hg
    symm
    rw [dGet_eq_none_iff]
    intro hk
    exact h1 (((hp.map Prod.fst).mem_iff).mpr hk)

/-- The encoding loop reads the payload only through lookup. -/
theorem encodeFields_ext (d d' : RawRequest) (h : ∀ k, dGet d k = dGet d' k) :
    ∀ qs, encodeFields d qs = encodeFields d' qs := by
  intro qs
  induction qs with
  | nil => rfl
  | cons q qs ih => rw [encodeFields_cons, encodeFields_cons, h q, ih]

/-- The whole route reads the payload only through lookup. -/
theorem predict_ext (A : Artifacts) (d d' : RawRequest) (h : ∀ k, dGet d k = dGet d' k) :
    predict A (some d) = predict A (some d') := by
  simp only [predict, encodeFields_ext d d' h questions]

/-- A loop-level 400 is returned by the route as a 400 with the same
message, whatever the artifacts are. -/
theorem predict_of_badRequest (A : Artifacts) (d : RawRequest) (m : String)
    (h : encodeFields d questions = Except.error (LoopErr.badRequest m)) :
    predict A (some d) = PredictResponse.err 400 m := by
  simp only [predict, h]

/-- An exception raised in the loop is returned by the route as a 500
carrying `str(e)`, whatever the artifacts are. -/
theorem predict_of_raised (A : Artifacts) (d : RawRequest) (m : String)
    (h : encodeFields d questions = Except.error (LoopErr.raised m)) :
    predict A (some d) = PredictResponse.err 500 m := by
  simp only [predict, h]

/-- A head field that is absent or null stops the loop with the 400
naming it. -/
theorem encodeFields_cons_missing (d : RawRequest) (q : String) (qs : List String)
    (hf : isNull (dGet d q) = true) :
    encodeFields d (q :: qs)
      = Except.error (LoopErr.badRequest ("Missing value for: " ++ q)) := by
  rw [encodeFields_cons]
  cases hg : dGet d q with
  | none => rfl
  | some v =>
    cases v with
    | null => rfl
    | str s => rw [hg] at hf; exact Bool.noConfusion hf
    | num x => rw [hg] at hf; exact Bool.noConfusion hf
    | bool b => rw [hg] at hf; exact Bool.noConfusion hf

/-- A head field that is present, non-null and fails its own check
stops the loop with that check's error. -/
theorem encodeFields_cons_bad (d : RawRequest) (q : String) (qs : List String)
    (v : Value) (e : LoopErr)
    (hv : dGet d q = some v) (hnn : v ≠ Value.null)
    (he : encodeField q v = Except.error e) :
    encodeFields d (q :: qs) = Except.error e := by
  rw [encodeFields_cons]
  simp only [hv, if_neg hnn, he]

/-- If the fields before `f` validate and `f` is absent or null, the
whole loop returns the 400 naming `f`. -/
theorem encodeFields_first_missing (d : RawRequest) (pre post : List String)
    (f : String) (xs : List ℚ)
    (hpre : encodeFields d pre = Except.ok xs)
    (hf : isNull (dGet d f) = true) :
    encodeFields d (pre ++ f :: post)
      = Except.error (LoopErr.badRequest ("Missing value for: " ++ f)) := by
  rw [encodeFields_append d pre _ xs hpre, encodeFields_cons_missing d f post hf]
  rfl

/-- If the fields before `f` validate and `f` is present with a value
failing its own check, the whole loop returns `f`'s error. -/
theorem encodeFields_first_bad (d : RawRequest) (pre post : List String)
    (f : String) (xs : List ℚ) (v : Value) (e : LoopErr)
    (hpre : encodeFields d pre = Except.ok xs)
    (hv : dGet d f = some v) (hnn : v ≠ Value.null)
    (he : encodeField f v = Except.error e) :
    encodeFields d (pre ++ f :: post) = Except.error e := by
  rw [encodeFields_append d pre _ xs hpre, encodeFields_cons_bad d f post v e hv hnn he]
  rfl

/-- A successful encoding pairs each question, in order, with the value
its field contributes. -/
theorem encodeFields_ok_forall2 (d : RawRequest) (qs : List String) (xs : List ℚ)
    (h : encodeFields d qs = Except.ok xs) :
    List.Forall₂ (fun q x => fieldValue d q = some x) qs xs := by
  induction qs generalizing xs with
  | nil => cases h; exact List.Forall₂.nil
  | cons q qs ih =>
    cases hg : dGet d q with
    | none =>
      simp only [encodeFields_cons, hg] at h
      exact Except.noConfusion h
    | some v =>
      by_cases hv : v = Value.null
      · simp only [encodeFields_cons, hg, if_pos hv] at h
        exact Except.noConfusion h
      · cases he : encodeField q v with
        | error e =>
          simp only [encodeFields_cons, hg, if_neg hv, he] at h
          exact Except.noConfusion h
        | ok x =>
          cases hrest : encodeFields d qs with
          | error e =>
            simp only [encodeFields_cons, hg, if_neg hv, he, hrest, Except.map] at h
            exact Except.noConfusion h
          | ok ys =>
            simp only [encodeFields_cons, hg, if_neg hv, he, hrest, Except.map,
              Except.ok.injEq] at h
            subst h
            refine List.Forall₂.cons ?_ (ih ys hrest)
            simp [fieldValue, hg, hv, he]

/-- A boolean (non-numeric) field contributes a value only when it is
exactly the string "Yes" (as 1) or exactly the string "No" (as 0). -/
theorem fieldValue_bool (d : RawRequest) (q : String) (x : ℚ)
    (hq : q ∉ numericFields) (h : fieldValue d q = some x) :
    (dGet d q = some (Value.str "Yes") ∧ x = 1)
    ∨ (dGet d q = some (Value.str "No") ∧ x = 0) := by
  cases hg : dGet d q with
  | none => simp [fieldValue, hg] at h
  | some v =>
    by_cases hv : v = Value.null
    · simp [fieldValue, hg, hv] at h
    · by_cases hy : v = Value.str "Yes"
      · left
        subst hy
        refine ⟨rfl, ?_⟩
        simp [fieldValue, hg, encodeField, if_neg hq] at h
        exact h.symm
      · by_cases hn : v = Value.str "No"
        · right
          subst hn
          refine ⟨rfl, ?_⟩
          simp [fieldValue, hg, encodeField, if_neg hq, hy] at h
          exact h.symm
        · exfalso
          simp [fieldValue, hg, hv, encodeField, if_neg hq, hy, hn] at h

/-- A numeric field contributes exactly the float into which its value
parses. -/
theorem fieldValue_numeric (d : RawRequest) (q : String) (x : ℚ) (v : Value)
    (hq : q ∈ numericFields) (h : fieldValue d q = some x)
    (hg : dGet d q = some v) : pyFloat v = Except.ok x := by
  by_cases hv : v = Value.null
  · simp [fieldValue, hg, hv] at h
  · cases he : pyFloat v with
    | error m =>
      have : encodeField q v = Except.error (LoopErr.raised m) := by
        simp only [encodeField, if_pos hq, he]
      simp [fieldValue, hg, hv, this] at h
    | ok y =>
      have : encodeField q v = Except.ok y := by
        simp only [encodeField, if_pos hq, he]
      simp [fieldValue, hg, hv, this] at h
      rw [h]

/-- The numeric string "37.5" parses to the rational 75/2. -/
theorem pyFloat_37_5 : pyFloat (Value.str "37.5") = Except.ok (75 / 2 : ℚ) := by
  have h0 : pyFloat (Value.str "37.5")
      = Except.ok (((digitsToNat ['3', '7'] : ℚ)
          + (digitsToNat ['5'] : ℚ) / 10 ^ (['5'] : List Char).length)
            * (10 : ℚ) ^ (0 : ℤ)) := rfl
  have h1 : digitsToNat ['3', '7'] = 37 := rfl
  have h2 : digitsToNat ['5'] = 5 := rfl
  rw [h0, h1, h2]
  norm_num

/-- C1: risk tier resolution is boundary-exact with half-open
intervals, lower bound inclusive: over [0,100], probabilities in
[0,35) resolve to Low, [35,50) to Medium, [50,75) to High and [75,100]
to Severe (so 34.99 is Low, 35 Medium, 49.99 Medium, 50 High, 74.99
High, 75 Severe, 0 Low, 100 Severe). -/
theorem C1_risk_tier_boundaries (p : ℚ) (h0 : 0 ≤ p) (h100 : p ≤ 100) :
    (p < 35 → riskLevel p = "Low Risk")
    ∧ (35 ≤ p → p < 50 → riskLevel p = "Medium Risk")
    ∧ (50 ≤ p → p < 75 → riskLevel p = "High Risk")
    ∧ (75 ≤ p → riskLevel p = "Severe Risk") := by
  refine ⟨fun h => ?_, fun h1 h2 => ?_, fun h1 h2 => ?_, fun h1 => ?_⟩
  · simp only [riskLevel]
    rw [if_pos h]
  · simp only [riskLevel]
    rw [if_neg (by linarith), if_pos h2]
  · simp only [riskLevel]
    rw [if_neg (by linarith), if_neg (by linarith), if_pos h2]
  · simp only [riskLevel]
    rw [if_neg (by linarith), if_neg (by linarith), if_neg (by linarith)]

/-- Witness for C1 at the boundary sample 34.99, inside [0,100]. -/
theorem C1_witness :
    (0 : ℚ) ≤ 3499 / 100 ∧ (3499 / 100 : ℚ) ≤ 100
    ∧ riskLevel (3499 / 100) = "Low Risk" :=
  ⟨by norm_num, by norm_num,
    (C1_risk_tier_boundaries (3499 / 100) (by norm_num) (by norm_num)).1 (by norm_num)⟩

/-- C2 counterexample: with `age` set to the unparsable string "abc"
(all other fields valid), the request fails with status 500 — not a
4xx — and the error text is the raw float ValueError message, which
does not name the offending field `age`. -/
theorem C2_counterexample_numeric_500 :
    predict idArtifacts (some payloadAgeAbc)
      = PredictResponse.err 500 "could not convert string to float: 'abc'"
    ∧ hasSubstring "could not convert string to float: 'abc'" "age" = false :=
  ⟨rfl, rfl⟩

/-- C2 as amended: when the fields before a numeric field `f` validate
and `f`'s value cannot be parsed as a float, the request fails with a
500 whose message is the raw conversion error (it does not carry the
field name and is not a 4xx); numeric strings such as "37.5" are
accepted and parsed. -/
theorem C2_numeric_parse_failure_500 (A : Artifacts) (d : RawRequest)
    (pre post : List String) (f : String) (xs : List ℚ) (v : Value) (m : String)
    (hq : questions = pre ++ f :: post)
    (hpre : encodeFields d pre = Except.ok xs)
    (hv : dGet d f = some v) (hnn : v ≠ Value.null)
    (hnum : f ∈ numericFields)
    (hpf : pyFloat v = Except.error m) :
    predict A (some d) = PredictResponse.err 500 m
    ∧ pyFloat (Value.str "37.5") = Except.ok (75 / 2 : ℚ) := by
  refine ⟨?_, pyFloat_37_5⟩
  apply predict_of_raised
  rw [hq]
  apply encodeFields_first_bad d pre post f xs v _ hpre hv hnn
  simp only [encodeField, if_pos hnum, hpf]

/-- Witness for C2 on `payloadAgeAbc` at the numeric field `age`. -/
theorem C2_witness :
    dGet payloadAgeAbc "age" = some (Value.str "abc")
    ∧ ("age" ∈ numericFields)
    ∧ predict idArtifacts (some payloadAgeAbc)
        = PredictResponse.err 500 "could not convert string to float: 'abc'"
    ∧ pyFloat (Value.str "37.5") = Except.ok (75 / 2 : ℚ) := by
  refine ⟨rfl, by decide, ?_, ?_⟩
  · exact (C2_numeric_parse_failure_500 idArtifacts payloadAgeAbc []
      ["trauma", "vt_history", "cancer", "lung", "renal", "diabetes",
       "temperature", "bmi", "edema", "immobility", "pneumonia", "platelets", "af"]
      "age" [] (Value.str "abc") "could not convert string to float: 'abc'"
      rfl rfl rfl (by decide) (by decide) rfl).1
  · exact (C2_numeric_parse_failure_500 idArtifacts payloadAgeAbc []
      ["trauma", "vt_history", "cancer", "lung", "renal", "diabetes",
       "temperature", "bmi", "edema", "immobility", "pneumonia", "platelets", "af"]
      "age" [] (Value.str "abc") "could not convert string to float: 'abc'"
      rfl rfl rfl (by decide) (by decide) rfl).2

/-- C3: when the fields before a required field `f` validate and `f`
is absent or null, the request fails with the 400 ValidationError
whose message names exactly `f`, whatever the artifacts are. -/
theorem C3_missing_field_names_field (A : Artifacts) (d : RawRequest)
    (pre post : List String) (f : String) (xs : List ℚ)
    (hq : questions = pre ++ f :: post)
    (hpre : encodeFields d pre = Except.ok xs)
    (hf : isNull (dGet d f) = true) :
    predict A (some d) = PredictResponse.err 400 ("Missing value for: " ++ f) := by
  apply predict_of_badRequest
  rw [hq]
  exact encodeFields_first_missing d pre post f xs hpre hf

/-- Witness for C3: scenario B, `bmi` omitted from a valid payload. -/
theorem C3_witness :
    isNull (dGet payloadNoBmi "bmi") = true
    ∧ predict idArtifacts (some payloadNoBmi)
        = PredictResponse.err 400 ("Missing value for: " ++ "bmi") :=
  ⟨rfl, C3_missing_field_names_field idArtifacts payloadNoBmi
    ["age", "trauma", "vt_history", "cancer", "lung", "renal", "diabetes", "temperature"]
    ["edema", "immobility", "pneumonia", "platelets", "af"] "bmi"
    [45, 0, 0, 0, 0, 0, 0, 37] rfl rfl rfl⟩

/-- C4: when the fields before a boolean (non-numeric) field `f`
validate and `f` carries any present, non-null value other than
exactly the string "Yes" or the string "No" (so "yes", "1", true, ""
are all rejected; matching is case-sensitive with no normalization),
the request fails with the 400 ValidationError naming `f`. -/
theorem C4_invalid_boolean_names_field (A : Artifacts) (d : RawRequest)
    (pre post : List String) (f : String) (xs : List ℚ) (v : Value)
    (hq : questions = pre ++ f :: post)
    (hpre : encodeFields d pre = Except.ok xs)
    (hv : dGet d f = some v) (hnn : v ≠ Value.null)
    (hnum : f ∉ numericFields)
    (hyes : v ≠ Value.str "Yes") (hno : v ≠ Value.str "No") :
    predict A (some d)
      = PredictResponse.err 400
          ("Invalid value for " ++ f ++ ": " ++ pyStr v ++ ". Must be Yes or No.") := by
  apply predict_of_badRequest
  rw [hq]
  apply encodeFields_first_bad d pre post f xs v _ hpre hv hnn
  simp only [encodeField, if_neg hnum, if_neg hyes, if_neg hno]

/-- Witness for C4: scenario C, `trauma` set to "maybe". -/
theorem C4_witness :
    dGet payloadTraumaMaybe "trauma" = some (Value.str "maybe")
    ∧ predict idArtifacts (some payloadTraumaMaybe)
        = PredictResponse.err 400
            ("Invalid value for " ++ "trauma" ++ ": " ++ pyStr (Value.str "maybe")
              ++ ". Must be Yes or No.") :=
  ⟨rfl, C4_invalid_boolean_names_field idArtifacts payloadTraumaMaybe
    ["age"]
    ["vt_history", "cancer", "lung", "renal", "diabetes", "temperature", "bmi",
     "edema", "immobility", "pneumonia", "platelets", "af"]
    "trauma" [45] (Value.str "maybe")
    rfl rfl rfl (by decide) (by decide) (by decide) (by decide)⟩

/-- C5: a request that fails validation with a 400 (missing field or
invalid boolean value) gets that 400 response for every choice of
artifacts, and the response is identical across arbitrary pairs of
artifacts — the scaler and the classifier never influence it (they are
never invoked). -/
theorem C5_validation_short_circuits (d : RawRequest) (m : String)
    (h : encodeFields d questions = Except.error (LoopErr.badRequest m)) :
    ∀ A A' : Artifacts,
      predict A (some d) = PredictResponse.err 400 m
      ∧ predict A (some d) = predict A' (some d) := by
  intro A A'
  have h1 := predict_of_badRequest A d m h
  have h2 := predict_of_badRequest A' d m h
  exact ⟨h1, h1.trans h2.symm⟩

/-- Witness for C5 on the payload missing `bmi`, with two different
artifact sets (one of which would raise if its scaler were called). -/
theorem C5_witness :
    encodeFields payloadNoBmi questions
      = Except.error (LoopErr.badRequest "Missing value for: bmi")
    ∧ predict idArtifacts (some payloadNoBmi)
        = PredictResponse.err 400 "Missing value for: bmi"
    ∧ predict idArtifacts (some payloadNoBmi)
        = predict (failingArtifacts "boom") (some payloadNoBmi) :=
  ⟨rfl,
    (C5_validation_short_circuits payloadNoBmi "Missing value for: bmi" rfl
      idArtifacts (failingArtifacts "boom")).1,
    (C5_validation_short_circuits payloadNoBmi "Missing value for: bmi" rfl
      idArtifacts (failingArtifacts "boom")).2⟩

/-- C6: the probability is rounded to two decimals before tier
assignment — on any successful run the response carries
`round2 (p * 100)` as the reported probability and the tier ladder is
applied to that same rounded value; in particular 34.999 (which is Low
unrounded) rounds to 35 and is reported as Medium. -/
theorem C6_rounding_before_tier (A : Artifacts) (d : RawRequest)
    (feats scaled yhat row : List ℚ) (probs : List (List ℚ)) (p : ℚ)
    (h1 : encodeFields d questions = Except.ok feats)
    (h2 : A.scalerTransform feats = Except.ok scaled)
    (h3 : A.modelPredict scaled = Except.ok yhat)
    (h4 : A.modelPredictProba scaled = Except.ok probs)
    (h5 : pyIndex probs 0 = Except.ok row)
    (h6 : pyIndex row 1 = Except.ok p) :
    predict A (some d)
      = PredictResponse.ok (round2 (p * 100)) (riskLevel (round2 (p * 100)))
    ∧ round2 (34999 / 1000 : ℚ) = 35
    ∧ riskLevel (round2 (34999 / 1000 : ℚ)) = "Medium Risk"
    ∧ riskLevel (34999 / 1000 : ℚ) = "Low Risk" := by
  refine ⟨?_, ?_, ?_, ?_⟩
  · simp only [predict, h1, h2, h3, h4, h5, h6]
  · norm_num [round2, roundHalfEven, Rat.floor]
  · have h : round2 (34999 / 1000 : ℚ) = 35 := by
      norm_num [round2, roundHalfEven, Rat.floor]
    rw [h]
    decide
  · simp only [riskLevel]
    rw [if_pos (by norm_num : (34999 / 1000 : ℚ) < 35)]

/-- Witness for C6 on a successful run with probability row
`[1 - 1/2, 1/2]`. -/
theorem C6_witness :
    pyIndex [1 - (1 / 2 : ℚ), 1 / 2] 1 = Except.ok (1 / 2 : ℚ)
    ∧ predict (probaArtifacts (1 / 2)) (some payloadA)
        = PredictResponse.ok (round2 ((1 / 2 : ℚ) * 100))
            (riskLevel (round2 ((1 / 2 : ℚ) * 100))) :=
  ⟨rfl, (C6_rounding_before_tier (probaArtifacts (1 / 2)) payloadA
    featsA featsA [0] [1 - (1 / 2 : ℚ), 1 / 2] [[1 - (1 / 2 : ℚ), 1 / 2]] (1 / 2)
    rfl rfl rfl rfl rfl rfl).1⟩

/-- C7: a successful encoding is a 14-element vector whose i-th entry
is the encoding of the i-th field of the fixed FeatureSpec order
(`questions`); boolean fields contribute 1 exactly for the string
"Yes" and 0 exactly for the string "No", numeric fields contribute the
parsed float; and the result is unchanged under any reordering of the
request's key/value pairs (the order is baked into the codec). -/
theorem C7_feature_vector_order (d : RawRequest) (xs : List ℚ)
    (h : encodeFields d questions = Except.ok xs) :
    xs.length = 14
    ∧ List.Forall₂ (fun q x => fieldValue d q = some x) questions xs
    ∧ (∀ q x, q ∉ numericFields → fieldValue d q = some x →
        (dGet d q = some (Value.str "Yes") ∧ x = 1)
        ∨ (dGet d q = some (Value.str "No") ∧ x = 0))
    ∧ (∀ q x v, q ∈ numericFields → fieldValue d q = some x →
        dGet d q = some v → pyFloat v = Except.ok x)
    ∧ (∀ d' : RawRequest, List.Perm d d' → (d.map Prod.fst).Nodup →
        encodeFields d' questions = Except.ok xs) := by
  have hf2 := encodeFields_ok_forall2 d questions xs h
  refine ⟨?_, hf2, ?_, ?_, ?_⟩
  · rw [← hf2.length_eq]
    rfl
  · intro q x hq hx
    exact fieldValue_bool d q x hq hx
  · intro q x v hq hx hg
    exact fieldValue_numeric d q x v hq hx hg
  · intro d' hperm hnodup
    rw [← encodeFields_ext d d' (dGet_eq_of_perm d d' hperm hnodup) questions]
    exact h

/-- Witness for C7 on the valid scenario payload. -/
theorem C7_witness :
    encodeFields payloadA questions = Except.ok featsA
    ∧ featsA.length = 14
    ∧ List.Forall₂ (fun q x => fieldValue payloadA q = some x) questions featsA :=
  ⟨rfl, (C7_feature_vector_order payloadA featsA rfl).1,
    (C7_feature_vector_order payloadA featsA rfl).2.1⟩

/-- C8: predict is deterministic and idempotent — with the same loaded
artifacts, invocations on identical payloads yield identical
responses; the embedded route is a pure function of the artifacts and
the payload (the source route reads no mutable state and calls no
randomness). -/
theorem C8_predict_deterministic (A : Artifacts) (d1 d2 : Option RawRequest)
    (h : d1 = d2) : predict A d1 = predict A d2 := by
  rw [h]

/-- Witness for C8: two runs on the scenario payload agree. -/
theorem C8_witness :
    predict idArtifacts (some payloadA) = predict idArtifacts (some payloadA) :=
  C8_predict_deterministic idArtifacts (some payloadA) (some payloadA) rfl

/-- C9 counterexample: the post-validation failure path is caught and
turned into a 500 response, but that response carries the raised
exception's own text verbatim — two artifact sets differing only in
their internal exception message produce different responses, so
internal error detail is leaked and the message is not generic. -/
theorem C9_counterexample_error_leak :
    predict (failingArtifacts
        "X has 14 features, but StandardScaler is expecting 13 features as input.")
      (some payloadA)
      = PredictResponse.err 500
          "X has 14 features, but StandardScaler is expecting 13 features as input."
    ∧ predict (failingArtifacts "internal detail A") (some payloadA)
        ≠ predict (failingArtifacts "internal detail B") (some payloadA) := by
  refine ⟨rfl, ?_⟩
  have ha : predict (failingArtifacts "internal detail A") (some payloadA)
      = PredictResponse.err 500 "internal detail A" := rfl
  have hb : predict (failingArtifacts "internal detail B") (some payloadA)
      = PredictResponse.err 500 "internal detail B" := rfl
  rw [ha, hb]
  intro h
  have := PredictResponse.err.injEq 500 "internal detail A" 500 "internal detail B" ▸ h
  simp at h

/-- C9 as amended: every exception raised after validation — in the
scaler, in either classifier call, or in the probability-row indexing
— is caught at the route boundary and converted into a 500 failure
response instead of crashing; the response body is the raised
exception's text (raw internal detail is returned to the caller, not a
generic message). -/
theorem C9_exceptions_caught_500 (A : Artifacts) (d : RawRequest) (feats : List ℚ)
    (h1 : encodeFields d questions = Except.ok feats) :
    (∀ m, A.scalerTransform feats = Except.error m →
      predict A (some d) = PredictResponse.err 500 m)
    ∧ (∀ scaled m, A.scalerTransform feats = Except.ok scaled →
        A.modelPredict scaled = Except.error m →
        predict A (some d) = PredictResponse.err 500 m)
    ∧ (∀ scaled yhat m, A.scalerTransform feats = Except.ok scaled →
        A.modelPredict scaled = Except.ok yhat →
        A.modelPredictProba scaled = Except.error m →
        predict A (some d) = PredictResponse.err 500 m)
    ∧ (∀ scaled yhat probs m, A.scalerTransform feats = Except.ok scaled →
        A.modelPredict scaled = Except.ok yhat →
        A.modelPredictProba scaled = Except.ok probs →
        pyIndex probs 0 = Except.error m →
        predict A (some d) = PredictResponse.err 500 m)
    ∧ (∀ scaled yhat probs row m, A.scalerTransform feats = Except.ok scaled →
        A.modelPredict scaled = Except.ok yhat →
        A.modelPredictProba scaled = Except.ok probs →
        pyIndex probs 0 = Except.ok row →
        pyIndex row 1 = Except.error m →
        predict A (some d) = PredictResponse.err 500 m) := by
  refine ⟨?_, ?_, ?_, ?_, ?_⟩ <;> intros <;> simp only [predict, h1]
  case _ m hm => simp only [hm]
  case _ scaled m hs hm => simp only [hs, hm]
  case _ scaled yhat m hs hy hm => simp only [hs, hy, hm]
  case _ scaled yhat probs m hs hy hp hm => simp only [hs, hy, hp, hm]
  case _ scaled yhat probs row m hs hy hp hr hm => simp only [hs, hy, hp, hr, hm]

/-- Witness for C9: a scaler that raises "boom" yields the 500
carrying "boom". -/
theorem C9_witness :
    encodeFields payloadA questions = Except.ok featsA
    ∧ predict (failingArtifacts "boom") (some payloadA)
        = PredictResponse.err 500 "boom" :=
  ⟨rfl, (C9_exceptions_caught_500 (failingArtifacts "boom") payloadA featsA rfl).1
    "boom" rfl⟩

/-- C10 counterexample: with `age` bound to the unparsable "abc" and
`trauma` absent, the earliest offending field in FeatureSpec order is
`age`, yet the single reported error is the raw float ValueError as a
500, whose text does not name `age` (nor any field). -/
theorem C10_counterexample_earliest_field :
    predict idArtifacts (some payloadAgeAbcNoTrauma)
      = PredictResponse.err 500 "could not convert string to float: 'abc'"
    ∧ hasSubstring "could not convert string to float: 'abc'" "age" = false
    ∧ hasSubstring "could not convert string to float: 'abc'" "trauma" = false :=
  ⟨rfl, rfl, rfl⟩

/-- C10 as amended: exactly one error is ever reported — the one of
the earliest offending field in the fixed FeatureSpec order — and the
outcome is independent of the order of the request's key/value pairs;
when that earliest offender is missing/null or an invalid boolean the
400 error names it, but when it is a numeric field whose value cannot
be parsed the reported error is the raw 500 float-conversion message,
which names no field. -/
theorem C10_first_offender_reporting (A : Artifacts) (d : RawRequest)
    (pre post : List String) (f : String) (xs : List ℚ)
    (hq : questions = pre ++ f :: post)
    (hpre : encodeFields d pre = Except.ok xs) :
    (isNull (dGet d f) = true →
      predict A (some d) = PredictResponse.err 400 ("Missing value for: " ++ f))
    ∧ (∀ v, dGet d f = some v → v ≠ Value.null → f ∉ numericFields →
        v ≠ Value.str "Yes" → v ≠ Value.str "No" →
        predict A (some d) = PredictResponse.err 400
          ("Invalid value for " ++ f ++ ": " ++ pyStr v ++ ". Must be Yes or No."))
    ∧ (∀ v m, dGet d f = some v → v ≠ Value.null → f ∈ numericFields →
        pyFloat v = Except.error m →
        predict A (some d) = PredictResponse.err 500 m)
    ∧ (∀ d' : RawRequest, List.Perm d d' → (d.map Prod.fst).Nodup →
        predict A (some d) = predict A (some d')) := by
  refine ⟨?_, ?_, ?_, ?_⟩
  · intro hf
    apply predict_of_badRequest
    rw [hq]
    exact encodeFields_first_missing d pre post f xs hpre hf
  · intro v hv hnn hnum hy hn
    apply predict_of_badRequest
    rw [hq]
    apply encodeFields_first_bad d pre post f xs v _ hpre hv hnn
    simp only [encodeField, if_neg hnum, if_neg hy, if_neg hn]
  · intro v m hv hnn hnum hpf
    apply predict_of_raised
    rw [hq]
    apply encodeFields_first_bad d pre post f xs v _ hpre hv hnn
    simp only [encodeField, if_pos hnum, hpf]
  · intro d' hperm hnodup
    exact predict_ext A d d' (dGet_eq_of_perm d d' hperm hnodup)

/-- Witness for C10: the first offender of `payloadAgeAbcNoTrauma` is
the numeric field `age`, and the reported error is the raw 500. -/
theorem C10_witness :
    dGet payloadAgeAbcNoTrauma "age" = some (Value.str "abc")
    ∧ predict idArtifacts (some payloadAgeAbcNoTrauma)
        = PredictResponse.err 500 "could not convert string to float: 'abc'" :=
  ⟨rfl, (C10_first_offender_reporting idArtifacts payloadAgeAbcNoTrauma []
      ["trauma", "vt_history", "cancer", "lung", "renal", "diabetes",
       "temperature", "bmi", "edema", "immobility", "pneumonia", "platelets", "af"]
      "age" [] rfl rfl).2.2.1
    (Value.str "abc") "could not convert string to float: 'abc'"
    rfl (by decide) (by decide) rfl⟩
